import Mathlib

/-!
Shallow embedding of `src/TranslucentTB/application.cpp` (the application
lifecycle core of TranslucentTB): the Shutdown orchestrator, the main event
loop `Run`, the welcome-page creation flow and its event handlers, the
dependency descriptors, and `BringWelcomeToFront`.

The code is event-driven; each function is embedded as a pure function that
returns the ordered list of externally visible actions (`Event`s) it performs,
together with its result or updated state where applicable.  Cross-thread
dispatch (`DispatchToMainThread`, `wil::resume_foreground`) hands a body to the
FIFO queue of the target thread; since each body here runs atomically on its
target thread, the dispatched body of a handler is embedded as the flat list of actions it
performs there.
-/

namespace TranslucentTB

/-- Log severities used by application.cpp (spdlog levels). -/
inductive Severity where
  | info
  | err
  | critical
deriving DecidableEq, Repr

/-- Externally visible actions performed by the embedded functions. -/
inductive Event where
  | acquireTask
  | awaitOperation
  | awaitStartupEnable
  | createWelcomeWindow
  | setWelcomePage (handle : Option Nat)
  | registerClosed
  | registerLiberapay
  | registerDiscord
  | registerConfigEdit
  | registerLicenseApproved
  | revokeClosed
  | startupDisable
  | deleteConfigFile
  | saveConfig
  | editConfigFile
  | removeHideTrayIconOverride
  | sendWelcomeNotice
  | shutdownInitiated (exitCode : Int)
  | lockThread
  | resumeThreadDispatcher
  | tryClose (handle : Nat)
  | setForegroundWindow (handle : Nat)
  | resumeMainDispatcher
  | shutdownQueueAsync
  | postQuitMessage (exitCode : Int)
  | preTranslateMessage (message : Nat) (wParam : Int)
  | translateMessage (message : Nat) (wParam : Int)
  | dispatchMessage (message : Nat) (wParam : Int)
  | log (sev : Severity)
deriving DecidableEq, Repr

/-! ## Main event loop (`Application::Run`) -/

/-- The WM_QUIT sentinel message code (WinUser.h). -/
def WM_QUIT : Nat := 0x0012

/-- One OS message as drained by `PeekMessage`.  `pre` is the answer of the
environment for `m_AppWindow.PreTranslateMessage` on this message (whether a hosted
window consumes it). -/
structure MSG where
  message : Nat
  wParam : Int
  pre : Bool
deriving DecidableEq, Repr

/-- Handling of one non-quit message inside the `PeekMessage` loop of
`Application::Run`: offer it to `PreTranslateMessage`; only if unconsumed,
`TranslateMessage` then `DispatchMessage`. -/
def processMessage (m : MSG) : List Event :=
  Event.preTranslateMessage m.message m.wParam ::
    (if m.pre then []
     else [Event.translateMessage m.message m.wParam,
           Event.dispatchMessage m.message m.wParam])

/-- The `PeekMessage` drain loop of `Application::Run` (WAIT_OBJECT_0 branch):
processes pending messages in order; on the WM_QUIT sentinel it stops at once
and reports the payload of the sentinel as the exit code. -/
def drainMessages : List MSG → List Event × Option Int
  | [] => ([], none)
  | m :: rest =>
    if m.message ≠ WM_QUIT then
      let r := drainMessages rest
      (processMessage m ++ r.1, r.2)
    else
      ([], some m.wParam)

/-- Outcomes of `MsgWaitForMultipleObjectsEx` in `Application::Run`.
`object0` carries the messages `PeekMessage` will drain; `other` is any
unrecognized return value. -/
inductive WaitResult where
  | object0 (msgs : List MSG)
  | ioCompletion
  | failed
  | other (value : Nat)
deriving DecidableEq, Repr

/-- What one iteration of the `while (true)` loop does next. -/
inductive LoopOutcome where
  | continueLoop
  | exitWith (code : Int)
deriving DecidableEq, Repr

/-- One iteration of the loop in `Application::Run`.  WAIT_OBJECT_0 drains
messages and falls through to `continue`; WAIT_IO_COMPLETION continues;
WAIT_FAILED logs the last error at critical severity and falls through into
the `default` branch, which logs at critical severity; every branch other than
hitting WM_QUIT continues the loop. -/
def runIteration : WaitResult → List Event × LoopOutcome
  | WaitResult.object0 msgs =>
    match drainMessages msgs with
    | (evts, some code) => (evts, LoopOutcome.exitWith code)
    | (evts, none) => (evts, LoopOutcome.continueLoop)
  | WaitResult.ioCompletion => ([], LoopOutcome.continueLoop)
  | WaitResult.failed =>
    ([Event.log Severity.critical, Event.log Severity.critical],
      LoopOutcome.continueLoop)
  | WaitResult.other _ => ([Event.log Severity.critical], LoopOutcome.continueLoop)

/-- Embedding of `Application::Run` over a finite sequence of wait results: iterates until
an iteration exits, returning the accumulated events and the exit code if
one was reached. -/
def Run : List WaitResult → List Event × Option Int
  | [] => ([], none)
  | wr :: rest =>
    match runIteration wr with
    | (evts, LoopOutcome.exitWith code) => (evts, some code)
    | (evts, LoopOutcome.continueLoop) =>
      let r := Run rest
      (evts ++ r.1, r.2)

/-! ## Shutdown orchestrator (`Application::Shutdown`) -/

/-- A hosted xaml window as `Shutdown` observes it: its OS handle, whether it
has page content (`window->page()`), and the answer its `TryClose()` gives. -/
structure XamlWindow where
  handle : Nat
  hasPage : Bool
  tryCloseResult : Bool
deriving DecidableEq, Repr

/-- One element of `m_Xaml.GetThreads()`: its current window, if any
(`GetCurrentWindow()`). -/
structure XamlThread where
  window : Option XamlWindow
deriving DecidableEq, Repr

/-- The window `Shutdown` polls on this thread, when the thread owns a window
with page content (`window && window->page()`). -/
def polled (t : XamlThread) : Option XamlWindow :=
  match t.window with
  | some w => if w.hasPage then some w else none
  | none => none

/-- The per-thread polling loop of `Application::Shutdown`, threading the
`canExit` flag: each thread is locked; if it owns a window with page content,
execution switches onto that thread and `TryClose` is asked; a refusal clears
`canExit` and brings the refusing window to the foreground, and the loop
continues with the remaining threads. -/
def shutdownPoll : List XamlThread → Bool → List Event × Bool
  | [], canExit => ([], canExit)
  | t :: rest, canExit =>
    match polled t with
    | some w =>
      let here := [Event.lockThread, Event.resumeThreadDispatcher,
                   Event.tryClose w.handle] ++
        (if w.tryCloseResult then [] else [Event.setForegroundWindow w.handle])
      let r := shutdownPoll rest (if w.tryCloseResult then canExit else false)
      (here ++ r.1, r.2)
    | none =>
      let r := shutdownPoll rest canExit
      (Event.lockThread :: r.1, r.2)

/-- Embedding of `Application::Shutdown(exitCode)`: poll every thread; if every polled
window agreed to close, resume on the main dispatcher queue, asynchronously
shut that queue down, then post the quit message carrying the exit code. -/
def Shutdown (threads : List XamlThread) (exitCode : Int) : List Event :=
  let r := shutdownPoll threads true
  r.1 ++
    (if r.2 then
      [Event.resumeMainDispatcher, Event.shutdownQueueAsync,
       Event.postQuitMessage exitCode]
    else [])

/-! ## Welcome page (`Application::CreateWelcomePage`) -/

/-- Main-thread body dispatched by the `Closed` handler registered in
`Application::CreateWelcomePage`: clear the cached handle, disable auto-start
if a startup task had been requested, delete the configuration file, and
initiate `Shutdown(1)`. -/
def closedHandlerBody (hasStartup : Bool) : List Event :=
  Event.setWelcomePage none ::
    ((if hasStartup then [Event.startupDisable] else []) ++
      [Event.deleteConfigFile, Event.shutdownInitiated 1])

/-- Main-thread body dispatched by the `LicenseApproved` handler: clear the
cached handle, save the configuration (first physical write of the file),
remove the tray-icon suppression override, send the welcome notice. -/
def licenseApprovedBody : List Event :=
  [Event.setWelcomePage none, Event.saveConfig,
   Event.removeHideTrayIconOverride, Event.sendWelcomeNotice]

/-- Handler-registration state of one welcome window instance: whether the
auto-revoking `Closed` registration is still active. -/
structure WelcomeWindowState where
  closedRegistered : Bool
deriving DecidableEq, Repr

/-- Firing the `Closed` event on a welcome window instance: the handler body
is dispatched to the main thread only while the registration is active. -/
def fireClosed (st : WelcomeWindowState) (hasStartup : Bool) : List Event :=
  if st.closedRegistered then closedHandlerBody hasStartup else []

/-- Firing the `LicenseApproved` event: the handler first revokes the `Closed`
registration (before the lambda returns, because returning makes the close
event fire), then dispatches its main-thread body. -/
def fireLicenseApproved (st : WelcomeWindowState) :
    WelcomeWindowState × List Event :=
  ({ st with closedRegistered := false }, Event.revokeClosed :: licenseApprovedBody)

/-- Event trace of `Application::CreateWelcomePage` given whether the
startup-registration awaitable `operation` is non-null and the handle of the
created window.  When the operation is non-null it is awaited first, then
`m_Startup.Enable()` is awaited, before the window is created (the closed
callback would otherwise need to await the single-use operation again).  The
configure callback then caches the handle on the main thread and registers the
handlers of the page. -/
def CreateWelcomePage (hasOperation : Bool) (hwnd : Nat) : List Event :=
  (if hasOperation then [Event.awaitOperation, Event.awaitStartupEnable] else []) ++
  [Event.createWelcomeWindow,
   Event.setWelcomePage (some hwnd),
   Event.registerClosed, Event.registerLiberapay, Event.registerDiscord,
   Event.registerConfigEdit, Event.registerLicenseApproved]

/-- Event trace of the body of `Application::Application`: the startup task is
acquired only when a storage folder was supplied
(`storageFolder ? m_Startup.AcquireTask() : nullptr`), and
`CreateWelcomePage` runs only when the configuration file did not already
exist (`if (!fileExists)`); the operation it receives is non-null exactly when
a storage folder was supplied. -/
def applicationCtor (hasStorageFolder fileExists : Bool) (hwnd : Nat) : List Event :=
  (if hasStorageFolder then [Event.acquireTask] else []) ++
  (if !fileExists then CreateWelcomePage hasStorageFolder hwnd else [])

/-! ## `Application::BringWelcomeToFront` -/

/-- Application state relevant to `BringWelcomeToFront`: the cached
`m_WelcomePage` window handle (`none` models nullptr). -/
structure AppState where
  m_WelcomePage : Option Nat
deriving DecidableEq, Repr

/-- Embedding of `Application::BringWelcomeToFront`: if the cached welcome handle is
non-null, bring it to the foreground and return true; otherwise return false.
Returns the result, the actions performed, and the resulting state. -/
def BringWelcomeToFront (st : AppState) : Bool × List Event × AppState :=
  match st.m_WelcomePage with
  | some h => (true, [Event.setForegroundWindow h], st)
  | none => (false, [], st)

/-! ## Dependency descriptors -/

/-- Structure PACKAGE_VERSION with the fields in the order in which the source lists
them (the source comment notes the order is reversed because that is how the
struct is laid out).  Each component is a 16-bit unsigned value, modelled as
`Nat`. -/
structure PACKAGE_VERSION where
  Revision : Nat
  Build : Nat
  Minor : Nat
  Major : Nat
deriving DecidableEq, Repr

/-- The `Microsoft.VCLibs.140.00` dependency descriptor version built in
`Application::Application`: 14.0.30704.0. -/
def uwpCRTDepVersion : PACKAGE_VERSION :=
  { Revision := 0, Build := 30704, Minor := 0, Major := 14 }

/-- The `Microsoft.UI.Xaml.2.7` dependency descriptor version built in
`Application::Application`: 7.2207.21001.0. -/
def winUIDepVersion : PACKAGE_VERSION :=
  { Revision := 0, Build := 21001, Minor := 2207, Major := 7 }

/-- Modelled from the spec: the dependency-package installation mechanics are
an external collaborator whose code is not under src/; per the spec, version
comparison is lexicographic on (major, minor, build, revision). -/
def versionLe (a b : PACKAGE_VERSION) : Bool :=
  if a.Major ≠ b.Major then decide (a.Major < b.Major)
  else if a.Minor ≠ b.Minor then decide (a.Minor < b.Minor)
  else if a.Build ≠ b.Build then decide (a.Build < b.Build)
  else decide (a.Revision ≤ b.Revision)

/-- Modelled from the spec: a dependency descriptor is satisfied by an
installed version that is greater than or equal to the version of the descriptor
in lexicographic order. -/
def dependencySatisfiedBy (descriptor installed : PACKAGE_VERSION) : Bool :=
  versionLe descriptor installed

/-- Lexicographic order on (Major, Minor, Build, Revision), as a
proposition, for stating what `versionLe` decides. -/
def VersionLexLe (a b : PACKAGE_VERSION) : Prop :=
  a.Major < b.Major ∨
    (a.Major = b.Major ∧ (a.Minor < b.Minor ∨
      (a.Minor = b.Minor ∧ (a.Build < b.Build ∨
        (a.Build = b.Build ∧ a.Revision ≤ b.Revision)))))

/-! ## Supporting lemmas -/

/-- Every event emitted by the polling loop of `Shutdown` is a lock, a
context switch, a `TryClose` query, or a foreground call. -/
lemma shutdownPoll_mem : ∀ (threads : List XamlThread) (c : Bool) (e : Event),
    e ∈ (shutdownPoll threads c).1 →
    e = Event.lockThread ∨ e = Event.resumeThreadDispatcher ∨
      (∃ hd, e = Event.tryClose hd) ∨ (∃ hd, e = Event.setForegroundWindow hd)
  | [], _, e => by simp [shutdownPoll]
  | t :: rest, c, e => by
    intro h
    cases hp : polled t with
    | some w =>
      simp only [shutdownPoll, hp] at h
      rcases List.mem_append.1 h with h | h
      · by_cases hw : w.tryCloseResult
        · simp [hw] at h
          rcases h with rfl | rfl | rfl
          · exact Or.inl rfl
          · exact Or.inr (Or.inl rfl)
          · exact Or.inr (Or.inr (Or.inl ⟨w.handle, rfl⟩))
        · simp [hw] at h
          rcases h with rfl | rfl | rfl | rfl
          · exact Or.inl rfl
          · exact Or.inr (Or.inl rfl)
          · exact Or.inr (Or.inr (Or.inl ⟨w.handle, rfl⟩))
          · exact Or.inr (Or.inr (Or.inr ⟨w.handle, rfl⟩))
      · exact shutdownPoll_mem rest _ e h
    | none =>
      simp only [shutdownPoll, hp, List.mem_cons] at h
      rcases h with h | h
      · exact Or.inl h
      · exact shutdownPoll_mem rest c e h

/-- The final `canExit` flag of the polling loop: the initial flag, and-ed
with every polled window having agreed to close. -/
lemma shutdownPoll_snd : ∀ (threads : List XamlThread) (c : Bool),
    (shutdownPoll threads c).2 =
      (c && threads.all fun t => (polled t).all fun w => w.tryCloseResult)
  | [], c => by simp [shutdownPoll]
  | t :: rest, c => by
    cases hp : polled t with
    | some w =>
      by_cases hw : w.tryCloseResult <;>
        simp [shutdownPoll, hp, hw, shutdownPoll_snd rest, Option.all]
    | none =>
      simp [shutdownPoll, hp, shutdownPoll_snd rest, Option.all]

/-- Every polled window is asked `TryClose`, whatever the flag and whatever
the answers of the windows polled before it. -/
lemma tryClose_mem_poll : ∀ (threads : List XamlThread) (c : Bool)
    (t : XamlThread), t ∈ threads → ∀ (w : XamlWindow), polled t = some w →
    Event.tryClose w.handle ∈ (shutdownPoll threads c).1
  | [], _, t => by simp
  | t' :: rest, c, t => by
    intro ht w hw
    rcases List.mem_cons.1 ht with rfl | ht
    · simp [shutdownPoll, hw]
    · cases hp : polled t' with
      | some w' =>
        simp only [shutdownPoll, hp, List.mem_append]
        exact Or.inr (tryClose_mem_poll rest _ t ht w hw)
      | none =>
        simp only [shutdownPoll, hp, List.mem_cons]
        exact Or.inr (tryClose_mem_poll rest c t ht w hw)

/-- Every polled window that refuses to close is brought to the
foreground. -/
lemma setForeground_mem_poll : ∀ (threads : List XamlThread) (c : Bool)
    (t : XamlThread), t ∈ threads → ∀ (w : XamlWindow), polled t = some w →
    w.tryCloseResult = false →
    Event.setForegroundWindow w.handle ∈ (shutdownPoll threads c).1
  | [], _, t => by simp
  | t' :: rest, c, t => by
    intro ht w hw hrefuse
    rcases List.mem_cons.1 ht with rfl | ht
    · simp [shutdownPoll, hw, hrefuse]
    · cases hp : polled t' with
      | some w' =>
        simp only [shutdownPoll, hp, List.mem_append]
        exact Or.inr (setForeground_mem_poll rest _ t ht w hw hrefuse)
      | none =>
        simp only [shutdownPoll, hp, List.mem_cons]
        exact Or.inr (setForeground_mem_poll rest c t ht w hw hrefuse)

/-- When the `PeekMessage` loop hits the quit sentinel, the events performed
are exactly those of the earlier non-quit messages, in order, and the
payload of the sentinel is returned; later messages are untouched. -/
lemma drainMessages_quit : ∀ (pre : List MSG),
    (∀ m ∈ pre, m.message ≠ WM_QUIT) → ∀ (q : MSG), q.message = WM_QUIT →
    ∀ (post : List MSG),
    drainMessages (pre ++ q :: post) =
      ((pre.map processMessage).flatten, some q.wParam)
  | [], _, q, hq, post => by simp [drainMessages, hq]
  | m :: pre, hpre, q, hq, post => by
    have hm : m.message ≠ WM_QUIT := hpre m (List.mem_cons_self m pre)
    have ih := drainMessages_quit pre
      (fun x hx => hpre x (List.mem_cons_of_mem m hx)) q hq post
    simp [drainMessages, hm, ih]

/-- Every event emitted by the `PeekMessage` drain loop is a pre-translate
offer, a translate, or a dispatch. -/
lemma drainMessages_mem : ∀ (msgs : List MSG) (e : Event),
    e ∈ (drainMessages msgs).1 →
    (∃ a b, e = Event.preTranslateMessage a b) ∨
      (∃ a b, e = Event.translateMessage a b) ∨
      (∃ a b, e = Event.dispatchMessage a b)
  | [], e => by simp [drainMessages]
  | m :: rest, e => by
    intro h
    by_cases hm : m.message ≠ WM_QUIT
    · simp only [drainMessages, if_pos hm] at h
      rcases List.mem_append.1 h with h | h
      · by_cases hp : m.pre
        · simp [processMessage, hp] at h
          exact Or.inl ⟨m.message, m.wParam, h⟩
        · simp [processMessage, hp] at h
          rcases h with rfl | rfl | rfl
          · exact Or.inl ⟨m.message, m.wParam, rfl⟩
          · exact Or.inr (Or.inl ⟨m.message, m.wParam, rfl⟩)
          · exact Or.inr (Or.inr ⟨m.message, m.wParam, rfl⟩)
      · exact drainMessages_mem rest e h
    · simp [drainMessages, hm] at h

/-- The events of one WAIT_OBJECT_0 iteration are exactly the events of the
message drain, whether or not the drain hit the quit sentinel. -/
lemma runIteration_object0_fst (msgs : List MSG) :
    (runIteration (WaitResult.object0 msgs)).1 = (drainMessages msgs).1 := by
  cases hd : drainMessages msgs with
  | mk evts r => cases r <;> simp [runIteration, hd]

/-! ## Claims -/

/-- Claim C3: firing `LicenseApproved` revokes the `Closed` registration before
the handler returns — the revoke is the first action of the handler and the
resulting registration is inactive — performs exactly one configuration save,
and the `Closed`-path logic never executes afterwards for that window
instance: firing `Closed` on the resulting state dispatches nothing, and the
`LicenseApproved` path itself performs no auto-start disable, no config-file
delete, and no `Shutdown(1)`. -/
theorem licenseApproved_revokes_and_saves_once (st : WelcomeWindowState) (hs : Bool) :
    (fireLicenseApproved st).1.closedRegistered = false
    ∧ (fireLicenseApproved st).2.head? = some Event.revokeClosed
    ∧ (fireLicenseApproved st).2.count Event.saveConfig = 1
    ∧ fireClosed (fireLicenseApproved st).1 hs = []
    ∧ Event.shutdownInitiated 1 ∉ (fireLicenseApproved st).2
    ∧ Event.deleteConfigFile ∉ (fireLicenseApproved st).2
    ∧ Event.startupDisable ∉ (fireLicenseApproved st).2 := by
  obtain ⟨reg⟩ := st
  cases reg <;>
    exact ⟨rfl, rfl, by decide, by simp [fireClosed, fireLicenseApproved],
      by decide, by decide, by decide⟩

/-- Witness for C3 at a concrete window state. -/
theorem licenseApproved_revokes_witness :
    (fireLicenseApproved { closedRegistered := true }).2.count Event.saveConfig = 1 :=
  (licenseApproved_revokes_and_saves_once { closedRegistered := true } true).2.2.1

/-- Claim C4: dependency-version satisfaction is lexicographic comparison on
(Major, Minor, Build, Revision): a descriptor is satisfied by an installed
version iff that version is lexicographically ≥ the version of the descriptor;
the 14.0.30704.0 descriptor of the source is satisfied by installed 14.0.30704.1 and
not by 13.9.99999.99. -/
theorem dependency_version_lexicographic :
    (∀ d v : PACKAGE_VERSION, dependencySatisfiedBy d v = true ↔ VersionLexLe d v)
    ∧ dependencySatisfiedBy uwpCRTDepVersion
        { Revision := 1, Build := 30704, Minor := 0, Major := 14 } = true
    ∧ dependencySatisfiedBy uwpCRTDepVersion
        { Revision := 99, Build := 99999, Minor := 9, Major := 13 } = false := by
  refine ⟨?_, by decide, by decide⟩
  intro d v
  unfold dependencySatisfiedBy versionLe VersionLexLe
  by_cases h1 : d.Major = v.Major <;> by_cases h2 : d.Minor = v.Minor <;>
    by_cases h3 : d.Build = v.Build <;> simp [h1, h2, h3]

/-- Witness for C4: the forward direction at the descriptor of the source. -/
theorem dependency_version_lexicographic_witness :
    VersionLexLe uwpCRTDepVersion
      { Revision := 1, Build := 30704, Minor := 0, Major := 14 } :=
  (dependency_version_lexicographic.1 uwpCRTDepVersion
    { Revision := 1, Build := 30704, Minor := 0, Major := 14 }).mp (by decide)

/-- Claim C5: when the configuration file already exists (`fileExists = true`),
the constructor never invokes `CreateWelcomePage`: no welcome window is
created, no welcome handle is cached, and the constructor trace holds nothing
but the conditional startup-task acquisition. -/
theorem fileExists_no_welcome (sf : Bool) (hwnd : Nat) :
    Event.createWelcomeWindow ∉ applicationCtor sf true hwnd
    ∧ (∀ h : Nat, Event.setWelcomePage (some h) ∉ applicationCtor sf true hwnd)
    ∧ applicationCtor sf true hwnd = (if sf then [Event.acquireTask] else []) := by
  cases sf <;> simp [applicationCtor]

/-- Witness for C5 at concrete inputs. -/
theorem fileExists_no_welcome_witness :
    Event.createWelcomeWindow ∉ applicationCtor true true 0 :=
  (fileExists_no_welcome true 0).1

/-- Claim C6: with no configuration file and no storage folder supplied, a
welcome window is created and no startup-registration awaitable is acquired
or awaited: the operation handed to `CreateWelcomePage` is null, so both the
operation await and the auto-start enable await are skipped. -/
theorem no_storage_welcome_no_await (hwnd : Nat) :
    Event.createWelcomeWindow ∈ applicationCtor false false hwnd
    ∧ Event.acquireTask ∉ applicationCtor false false hwnd
    ∧ Event.awaitOperation ∉ applicationCtor false false hwnd
    ∧ Event.awaitStartupEnable ∉ applicationCtor false false hwnd := by
  simp [applicationCtor, CreateWelcomePage]

/-- Witness for C6 at a concrete handle. -/
theorem no_storage_welcome_no_await_witness :
    Event.createWelcomeWindow ∈ applicationCtor false false 3 :=
  (no_storage_welcome_no_await 3).1

/-- Claim C7: firing `Closed` while the registration is active dispatches a
main-thread body that performs exactly: clear the cached welcome handle
(first), disable auto-start iff a startup task had been requested, delete the
configuration file, and initiate `Shutdown` with exit code 1 (last); and a
quit message carrying payload 1 makes the main loop exit with code 1. -/
theorem closed_without_approval_exits_one (st : WelcomeWindowState) (hs : Bool)
    (hreg : st.closedRegistered = true) :
    (fireClosed st hs).head? = some (Event.setWelcomePage none)
    ∧ (Event.startupDisable ∈ fireClosed st hs ↔ hs = true)
    ∧ Event.deleteConfigFile ∈ fireClosed st hs
    ∧ (fireClosed st hs).getLast? = some (Event.shutdownInitiated 1)
    ∧ (fireClosed st hs).length = (if hs then 4 else 3)
    ∧ (∀ (b : Bool) (rest : List MSG),
        (runIteration (WaitResult.object0 (⟨WM_QUIT, 1, b⟩ :: rest))).2 =
          LoopOutcome.exitWith 1) := by
  obtain ⟨reg⟩ := st
  cases hreg
  refine ⟨?_, ?_, ?_, ?_, ?_, ?_⟩
  · cases hs <;> decide
  · cases hs <;> decide
  · cases hs <;> decide
  · cases hs <;> decide
  · cases hs <;> decide
  · intro b rest
    simp [runIteration, drainMessages]

/-- Witness for C7 at a concrete window state. -/
theorem closed_without_approval_witness :
    Event.deleteConfigFile ∈ fireClosed { closedRegistered := true } true :=
  (closed_without_approval_exits_one { closedRegistered := true } true rfl).2.2.1

/-- Claim C9: a failed wait (WAIT_FAILED) and any other unrecognized wait
result are each logged at critical severity and the loop continues to its
next wait iteration; neither terminates the loop or returns an exit code. -/
theorem wait_failure_logged_loop_continues (v : Nat) (rest : List WaitResult) :
    (runIteration WaitResult.failed).2 = LoopOutcome.continueLoop
    ∧ Event.log Severity.critical ∈ (runIteration WaitResult.failed).1
    ∧ (runIteration (WaitResult.other v)).2 = LoopOutcome.continueLoop
    ∧ Event.log Severity.critical ∈ (runIteration (WaitResult.other v)).1
    ∧ (Run (WaitResult.failed :: rest)).2 = (Run rest).2
    ∧ (Run (WaitResult.other v :: rest)).2 = (Run rest).2 := by
  refine ⟨rfl, by simp [runIteration], rfl, by simp [runIteration], ?_, ?_⟩ <;>
    simp [Run, runIteration]

/-- Witness for C9 at concrete inputs. -/
theorem wait_failure_logged_witness :
    Event.log Severity.critical ∈ (runIteration WaitResult.failed).1 :=
  (wait_failure_logged_loop_continues 0 []).2.1

/-- Claim C10: `BringWelcomeToFront` returns true and brings the cached welcome
window to the foreground iff the cached handle is non-null; with a null
handle it returns false and performs no foreground call; the cached handle is
unchanged in both cases. -/
theorem bringWelcomeToFront_iff_handle (st : AppState) :
    ((BringWelcomeToFront st).1 = true ↔ st.m_WelcomePage.isSome = true)
    ∧ (∀ h : Nat, st.m_WelcomePage = some h →
        (BringWelcomeToFront st).2.1 = [Event.setForegroundWindow h])
    ∧ (st.m_WelcomePage = none → (BringWelcomeToFront st).2.1 = [])
    ∧ (BringWelcomeToFront st).2.2 = st := by
  cases hw : st.m_WelcomePage <;> simp [BringWelcomeToFront, hw]

/-- Witness for C10 at a concrete state. -/
theorem bringWelcomeToFront_witness :
    (BringWelcomeToFront { m_WelcomePage := some 7 }).1 = true :=
  (bringWelcomeToFront_iff_handle { m_WelcomePage := some 7 }).1.mpr (by decide)

/-- Claim C1: `Shutdown` posts the quit signal iff every polled window with
active content reports it can close; a refusing window is brought to the
foreground; every polled window is asked to close regardless of earlier
refusals (no short-circuit); and whenever the quit signal is posted, the
dispatcher-queue shutdown strictly precedes it in the event order. -/
theorem shutdown_quit_iff_all_closable (threads : List XamlThread) (exitCode : Int) :
    (Event.postQuitMessage exitCode ∈ Shutdown threads exitCode ↔
      (threads.all fun t => (polled t).all fun w => w.tryCloseResult) = true)
    ∧ (∀ t ∈ threads, ∀ w : XamlWindow, polled t = some w →
        w.tryCloseResult = false →
        Event.setForegroundWindow w.handle ∈ Shutdown threads exitCode)
    ∧ (∀ t ∈ threads, ∀ w : XamlWindow, polled t = some w →
        Event.tryClose w.handle ∈ Shutdown threads exitCode)
    ∧ (Event.postQuitMessage exitCode ∈ Shutdown threads exitCode →
        ∃ i j : Nat, i < j ∧
          (Shutdown threads exitCode)[i]? = some Event.shutdownQueueAsync ∧
          (Shutdown threads exitCode)[j]? = some (Event.postQuitMessage exitCode)) := by
  have hnotin : Event.postQuitMessage exitCode ∉ (shutdownPoll threads true).1 := by
    intro hmem
    rcases shutdownPoll_mem threads true _ hmem with h | h | ⟨hd, h⟩ | ⟨hd, h⟩ <;>
      simp at h
  have hunfold : Shutdown threads exitCode = (shutdownPoll threads true).1 ++
      (if (shutdownPoll threads true).2 then
        [Event.resumeMainDispatcher, Event.shutdownQueueAsync,
         Event.postQuitMessage exitCode]
      else []) := rfl
  have hmem_snd : Event.postQuitMessage exitCode ∈ Shutdown threads exitCode →
      (shutdownPoll threads true).2 = true := by
    intro hmem
    rw [hunfold] at hmem
    rcases List.mem_append.1 hmem with h | h
    · exact absurd h hnotin
    · by_cases hs : (shutdownPoll threads true).2
      · exact hs
      · simp [hs] at h
  refine ⟨⟨?_, ?_⟩, ?_, ?_, ?_⟩
  · intro hmem
    have hs := hmem_snd hmem
    have h2 := (shutdownPoll_snd threads true).symm.trans hs
    simpa using h2
  · intro hall
    have hs : (shutdownPoll threads true).2 = true := by
      rw [shutdownPoll_snd]; simp [hall]
    rw [hunfold, hs]
    simp
  · intro t ht w hw hr
    rw [hunfold]
    exact List.mem_append_left _ (setForeground_mem_poll threads true t ht w hw hr)
  · intro t ht w hw
    rw [hunfold]
    exact List.mem_append_left _ (tryClose_mem_poll threads true t ht w hw)
  · intro hmem
    have hs := hmem_snd hmem
    refine ⟨(shutdownPoll threads true).1.length + 1,
      (shutdownPoll threads true).1.length + 2, by omega, ?_, ?_⟩
    · rw [hunfold, hs]
      rw [List.getElem?_append_right (by omega)]
      simp
    · rw [hunfold, hs]
      rw [List.getElem?_append_right (by omega)]
      simp

/-- Witness for C1: with one thread whose window agrees to close, the quit
signal is posted. -/
theorem shutdown_quit_witness :
    Event.postQuitMessage 0 ∈
      Shutdown [{ window := some { handle := 5, hasPage := true, tryCloseResult := true } }] 0 :=
  (shutdown_quit_iff_all_closable
    [{ window := some { handle := 5, hasPage := true, tryCloseResult := true } }] 0).1.mpr
    (by decide)

/-- Claim C2: given a non-null startup-registration awaitable,
`CreateWelcomePage` awaits it exactly once, awaits the auto-start enable
strictly after it, and both awaits precede the window creation; over an
`Application` lifetime the awaitable is awaited at most once, and no other
embedded code path (the welcome handlers, `Shutdown`, the main loop,
`BringWelcomeToFront`) performs that await. -/
theorem welcome_awaits_once_before_window (hwnd : Nat) :
    (CreateWelcomePage true hwnd).count Event.awaitOperation = 1
    ∧ (CreateWelcomePage true hwnd).count Event.awaitStartupEnable = 1
    ∧ (CreateWelcomePage true hwnd).indexOf Event.awaitOperation <
        (CreateWelcomePage true hwnd).indexOf Event.awaitStartupEnable
    ∧ (CreateWelcomePage true hwnd).indexOf Event.awaitStartupEnable <
        (CreateWelcomePage true hwnd).indexOf Event.createWelcomeWindow
    ∧ (∀ (sf fe : Bool) (h : Nat),
        (applicationCtor sf fe h).count Event.awaitOperation ≤ 1)
    ∧ (∀ (st : WelcomeWindowState) (hs : Bool),
        Event.awaitOperation ∉ fireClosed st hs
        ∧ Event.awaitOperation ∉ (fireLicenseApproved st).2)
    ∧ (∀ (threads : List XamlThread) (e : Int),
        Event.awaitOperation ∉ Shutdown threads e)
    ∧ (∀ wr : WaitResult, Event.awaitOperation ∉ (runIteration wr).1)
    ∧ (∀ st : AppState, Event.awaitOperation ∉ (BringWelcomeToFront st).2.1) := by
  refine ⟨?_, ?_, ?_, ?_, ?_, ?_, ?_, ?_, ?_⟩
  · simp [CreateWelcomePage, List.count_cons]
  · simp [CreateWelcomePage, List.count_cons]
  · simp [CreateWelcomePage, List.indexOf, List.findIdx_cons]
    decide
  · simp [CreateWelcomePage, List.indexOf, List.findIdx_cons]
    decide
  · intro sf fe h
    cases sf <;> cases fe <;> simp [applicationCtor, CreateWelcomePage, List.count_cons]
  · intro st hs
    obtain ⟨reg⟩ := st
    cases reg <;> cases hs <;>
      simp [fireClosed, fireLicenseApproved, closedHandlerBody, licenseApprovedBody]
  · intro threads e hmem
    rcases List.mem_append.1 hmem with h | h
    · rcases shutdownPoll_mem threads true _ h with h | h | ⟨hd, h⟩ | ⟨hd, h⟩ <;>
        simp at h
    · by_cases hs : (shutdownPoll threads true).2 <;> simp [hs] at h
  · intro wr hmem
    cases wr with
    | object0 msgs =>
      rw [runIteration_object0_fst] at hmem
      rcases drainMessages_mem msgs _ hmem with ⟨a, b, h⟩ | ⟨a, b, h⟩ | ⟨a, b, h⟩ <;>
        simp at h
    | ioCompletion => simp [runIteration] at hmem
    | failed => simp [runIteration] at hmem
    | other v => simp [runIteration] at hmem
  · intro st hmem
    cases hw : st.m_WelcomePage <;> simp [BringWelcomeToFront, hw] at hmem

/-- Witness for C2 at a concrete handle. -/
theorem welcome_awaits_once_witness :
    (CreateWelcomePage true 4).count Event.awaitOperation = 1 :=
  (welcome_awaits_once_before_window 4).1

/-- Claim C8: in the drain loop of `Run`, hitting the quit sentinel returns its
payload immediately — the events performed are exactly those of the earlier
non-quit messages, in order, and later messages are not processed — and each
non-quit message is first offered to `PreTranslateMessage`, with
translate+dispatch running iff the pre-translate did not consume it. -/
theorem run_quit_payload_and_pretranslate (pre post : List MSG) (q : MSG)
    (hpre : ∀ m ∈ pre, m.message ≠ WM_QUIT) (hq : q.message = WM_QUIT) :
    drainMessages (pre ++ q :: post) =
      ((pre.map processMessage).flatten, some q.wParam)
    ∧ (runIteration (WaitResult.object0 (pre ++ q :: post))).2 =
        LoopOutcome.exitWith q.wParam
    ∧ (∀ m : MSG, (processMessage m).head? =
        some (Event.preTranslateMessage m.message m.wParam))
    ∧ (∀ m : MSG,
        (Event.translateMessage m.message m.wParam ∈ processMessage m ↔ m.pre = false)
        ∧ (Event.dispatchMessage m.message m.wParam ∈ processMessage m ↔ m.pre = false)) := by
  have hd := drainMessages_quit pre hpre q hq post
  refine ⟨hd, ?_, fun m => rfl, fun m => ?_⟩
  · simp [runIteration, hd]
  · by_cases hp : m.pre <;> simp [processMessage, hp]

/-- Witness for C8 at a concrete message sequence. -/
theorem run_quit_payload_witness :
    drainMessages ([⟨1, 0, false⟩] ++ (⟨WM_QUIT, 5, false⟩ : MSG) :: [⟨2, 0, true⟩]) =
      ((([⟨1, 0, false⟩] : List MSG).map processMessage).flatten, some 5) :=
  (run_quit_payload_and_pretranslate [⟨1, 0, false⟩] [⟨2, 0, true⟩]
    ⟨WM_QUIT, 5, false⟩ (by decide) rfl).1

end TranslucentTB
